import Mathlib

/-
Verification of the launchy grid-controller library against its specification.

The Rust sources are shallowly embedded: f32 color math is modelled over ℚ
(exact arithmetic; all concrete values used in theorems are exactly
representable and round identically in f32), u8/u16/u32/i32 values are ℕ/ℤ
with explicit wrapping casts (mod 2^32) where the source relies on them, and
panicking code paths are modelled as Except.error carrying the panic message.
-/

namespace Launchy

/-- RGB color with rational components, modelling the float-based `Color`
struct of src/canvas/color.rs. Components nominally lie in 0..=1 but are not
clamped on construction. -/
structure Color where
  r : ℚ
  g : ℚ
  b : ℚ
deriving DecidableEq, Repr

/-- The named constant `Color::BLACK`. -/
def Color.BLACK : Color := ⟨0, 0, 0⟩

/-- Rust saturating numeric cast from a float to u8, exact over ℚ: truncation
toward zero, saturated into 0..=255. For nonnegative arguments this is the
floor capped at 255; negative arguments saturate to 0 (matching Int.toNat). -/
def f32AsU8 (q : ℚ) : ℕ := min (Int.toNat ⌊q⌋) 255

/-- `Color::clamp` from src/canvas/color.rs: if any component exceeds 1, scale
all three by the reciprocal of the largest component, then clip each into
0..=1 (`f32::clamp(x, 0.0, 1.0)` is `min (max x 0) 1`). -/
def Color.clamp (c : Color) : Color :=
  let highest_component := max c.r (max c.g c.b)
  let multiplier : ℚ := if highest_component > 1 then 1 / highest_component else 1
  { r := min (max (c.r * multiplier) 0) 1
    g := min (max (c.g * multiplier) 0) 1
    b := min (max (c.b * multiplier) 0) 1 }

/-- `Color::quantize` from src/canvas/color.rs: clamp, scale each component by
`range`, cast to u8 (truncation), and cap at `range - 1`. -/
def Color.quantize (c : Color) (range : ℕ) : ℕ × ℕ × ℕ :=
  let cl := c.clamp
  (min (f32AsU8 (cl.r * range)) (range - 1),
   min (f32AsU8 (cl.g * range)) (range - 1),
   min (f32AsU8 (cl.b * range)) (range - 1))

/-- Bounds-checked row-major 2-D buffer from src/util.rs. The backing `Vec` is
a list; `new` establishes `vec.length = width * height`. -/
structure Array2d (T : Type) where
  width : ℕ
  height : ℕ
  vec : List T
deriving DecidableEq, Repr

/-- `Array2d::new(width, height)`: default-initialized flat storage. -/
def Array2d.new (T : Type) [Inhabited T] (width height : ℕ) : Array2d T :=
  { width := width, height := height, vec := List.replicate (width * height) default }

/-- `Array2d::is_valid` from src/util.rs: `x < width && y < height`. -/
def Array2d.is_valid (a : Array2d T) (x y : ℕ) : Bool :=
  decide (x < a.width) && decide (y < a.height)

/-- `Array2d::get` from src/util.rs. The source `assert!(self.is_valid(x, y))`
panics out of bounds; the panic is modelled as Except.error. In bounds it
returns `vec[y * width + x]` (a further panic if the backing vector is shorter
than the declared dimensions, which `new` never produces). -/
def Array2d.get (a : Array2d T) (x y : ℕ) : Except String T :=
  if a.is_valid x y then
    match a.vec.get? (y * a.width + x) with
    | some v => Except.ok v
    | none => Except.error "index out of bounds"
  else Except.error "assertion failed: self.is_valid(x, y)"

/-- `Array2d::set` from src/util.rs: `*self.get_mut(x, y) = value`. The
bounds assertion of `get_mut` panics out of bounds, modelled as Except.error. -/
def Array2d.set (a : Array2d T) (x y : ℕ) (value : T) : Except String (Array2d T) :=
  if a.is_valid x y then
    Except.ok { a with vec := a.vec.set (y * a.width + x) value }
  else Except.error "assertion failed: self.is_valid(x, y)"

/-- Total in-bounds read used by internal canvas code whose indices come from
the canvas iterator (always in bounds for well-formed buffers); agrees with
`Array2d.get` whenever that returns a value. -/
def Array2d.getD (a : Array2d T) (x y : ℕ) (dflt : T) : T :=
  a.vec.getD (y * a.width + x) dflt

/-- Modelled from the spec: `PhysicalButton { x, y }` (src/protocols declares
it in a file not present in this snapshot) names a raw physical grid slot by
unsigned coordinates, without regard to role. -/
structure PhysicalButton where
  x : ℕ
  y : ℕ
deriving DecidableEq, Repr

/-- Modelled from the spec: `LogicalButton` (src/protocols declares it in a
file not present in this snapshot) names a button by role — a numbered control
button or an (x, y) grid cell — exactly like `Button80`. -/
inductive LogicalButton where
  | ControlButton (index : ℕ)
  | GridButton (x y : ℕ)
deriving DecidableEq, Repr

/-- The `Button80` address type of src/protocols/mod.rs. -/
inductive Button80 where
  | ControlButton (index : ℕ)
  | GridButton (x y : ℕ)
deriving DecidableEq, Repr

/-- `Button80::from_abs` from src/protocols/mod.rs: y = 0 is the control row
(asserting x ≤ 7), y = 1..=8 the grid (asserting x ≤ 8); other y panics.
Panics are modelled as Except.error. -/
def Button80.from_abs (x y : ℕ) : Except String Button80 :=
  if y = 0 then
    if x ≤ 7 then Except.ok (Button80.ControlButton x)
    else Except.error "assertion failed: x <= 7"
  else if y ≤ 8 then
    if x ≤ 8 then Except.ok (Button80.GridButton x (y - 1))
    else Except.error "assertion failed: x <= 8"
  else Except.error "Unexpected y"

/-- `default_physical_to_logical` from src/shared/mod.rs, parameterized over a
DeviceSpec's `is_valid`. Source control flow: reject invalid coordinates with
None; for y = 0 return a control button if `x < 7` and otherwise panic; for
y = 1..=8 return a grid button if `x <= 8` and otherwise panic; other y gives
None. Panics are modelled as Except.error. -/
def default_physical_to_logical (is_valid : ℕ → ℕ → Bool) (button : PhysicalButton) :
    Except String (Option LogicalButton) :=
  if !(is_valid button.x button.y) then Except.ok none
  else if button.y = 0 then
    if button.x < 7 then Except.ok (some (LogicalButton.ControlButton button.x))
    else Except.error "Control Button the LaunchPad indicates is valid is too high"
  else if button.y ≤ 8 then
    if button.x ≤ 8 then Except.ok (some (LogicalButton.GridButton button.x (button.y - 1)))
    else Except.error "Grid Button the LaunchPad indicates is valid is too high"
  else Except.ok none

/-- `default_logical_to_physical` from src/shared/mod.rs. -/
def default_logical_to_physical : LogicalButton → PhysicalButton
  | LogicalButton.ControlButton index => ⟨index, 0⟩
  | LogicalButton.GridButton x y => ⟨x, y + 1⟩

/-- `DeviceSpec::is_valid` of the Launchpad MK2 (src/launchpad_mk2/mod.rs):
a 9x9 bounding box with the single cell (8, 0) invalid. -/
def mk2_is_valid (x y : ℕ) : Bool :=
  if x > 8 || y > 8 then false
  else if x = 8 && y = 0 then false
  else true

/-- Rust `u32 as i32` wrapping cast. A u32 value is a ℕ; values of 2^31 and
above reinterpret as negatives. The argument is reduced mod 2^32 first so the
definition is total over ℕ. -/
def i32ofU32 (n : ℕ) : ℤ :=
  if n % 4294967296 < 2147483648 then ((n % 4294967296 : ℕ) : ℤ)
  else ((n % 4294967296 : ℕ) : ℤ) - 4294967296

/-- Rust `i32 as u32` wrapping cast: the representative of the value mod 2^32
in 0..2^32. Lean's Int.emod already yields that representative. -/
def u32ofI32 (i : ℤ) : ℕ := (i % 4294967296).toNat

/-- The `Rotation` enum of src/canvas/layout.rs. -/
inductive Rotation where
  | None
  | Left
  | Right
  | UpsideDown
deriving DecidableEq, Repr

/-- `std::ops::Neg for Rotation` from src/canvas/layout.rs: Left and Right are
mutually inverse; None and UpsideDown are self-inverse. -/
def Rotation.neg : Rotation → Rotation
  | Rotation.None => Rotation.None
  | Rotation.UpsideDown => Rotation.UpsideDown
  | Rotation.Left => Rotation.Right
  | Rotation.Right => Rotation.Left

/-- `Rotation::translate` from src/canvas/layout.rs, over mathematical i32
values (i32 overflow wraps mod 2^32 in the compiled library; every use below
reduces the result mod 2^32 via u32ofI32, for which the wrapping of
intermediates is invisible). -/
def Rotation.translate (rot : Rotation) (x y : ℤ) : ℤ × ℤ :=
  match rot with
  | Rotation.None => (x, y)
  | Rotation.UpsideDown => (-x, -y)
  | Rotation.Left => (-y, x)
  | Rotation.Right => (y, -x)

/-- The free function `to_global` from src/canvas/layout.rs: rotate the local
coordinate, add the placement offset, cast back to u32. -/
def to_global (x y : ℕ) (rot : Rotation) (x_offset y_offset : ℕ) : ℕ × ℕ :=
  let p := rot.translate (i32ofU32 x) (i32ofU32 y)
  (u32ofI32 (p.1 + i32ofU32 x_offset), u32ofI32 (p.2 + i32ofU32 y_offset))

/-- The free function `to_local` from src/canvas/layout.rs: subtract the
placement offset, rotate by the inverse rotation, cast back to u32. -/
def to_local (x y : ℕ) (rot : Rotation) (x_offset y_offset : ℕ) : ℕ × ℕ :=
  let p := rot.neg.translate (i32ofU32 x - i32ofU32 x_offset) (i32ofU32 y - i32ofU32 y_offset)
  (u32ofI32 p.1, u32ofI32 p.2)

/-- The `Pad` coordinate of src/canvas/pad.rs: a signed (i32, i32) grid
coordinate, modelled over ℤ. -/
structure Pad where
  x : ℤ
  y : ℤ
deriving DecidableEq, Repr

/-- Rust `i32::rem_euclid`: panics when the divisor is zero (division by
zero) and also — in every build profile — when self is i32::MIN and the
divisor is -1 (remainder overflow); both panics are modelled as Except.error.
Otherwise it returns the representative in [0, divisor.natAbs), which is
Lean's Int.emod. -/
def remEuclidI32 (a b : ℤ) : Except String ℤ :=
  if b = 0 then Except.error "attempt to calculate the remainder with a divisor of zero"
  else if a = -2147483648 ∧ b = -1 then
    Except.error "attempt to calculate the remainder with overflow"
  else Except.ok (a % b)

/-- `Pad::wrap_edges` from src/canvas/pad.rs: Euclidean remainder of each
coordinate by the bound cast `u32 as i32`. -/
def Pad.wrap_edges (p : Pad) (width height : ℕ) : Except String Pad := do
  let x ← remEuclidI32 p.x (i32ofU32 width)
  let y ← remEuclidI32 p.y (i32ofU32 height)
  pure ⟨x, y⟩

/-- The `DeviceIdQuery` enum of src/protocols/query.rs. -/
inductive DeviceIdQuery where
  | Specific (device_id : ℕ)
  | Any
deriving DecidableEq, Repr

/-- The parsed `DeviceInquiry` record of src/protocols/query.rs. -/
structure DeviceInquiry where
  device_id : ℕ
  family_code : ℕ
  family_member_code : ℕ
  firmware_revision : ℕ
deriving DecidableEq, Repr

/-- `request_device_inquiry` from src/protocols/query.rs, modelled as the byte
frame handed to `output.send`. Device id 127 is reserved for the Any query;
`assert_ne!(device_id, 127)` panics for Specific(127), modelled as
Except.error. -/
def request_device_inquiry : DeviceIdQuery → Except String (List ℕ)
  | DeviceIdQuery.Specific device_id =>
      if device_id = 127 then
        Except.error "assertion failed: device_id != QUERY_DEVICE_ID_FOR_ANY"
      else Except.ok [240, 126, device_id, 6, 1, 247]
  | DeviceIdQuery.Any => Except.ok [240, 126, 127, 6, 1, 247]

/-- `parse_device_query` from src/protocols/query.rs: recognize exactly the
17-byte device-inquiry response frame; family codes decode as big-endian u16,
the firmware revision as four decimal digits. -/
def parse_device_query (data : List ℕ) : Option DeviceInquiry :=
  match data with
  | [240, 126, device_id, 6, 2, 0, 32, 41, fc1, fc2, fmc1, fmc2, fr1, fr2, fr3, fr4, 247] =>
      some { device_id := device_id
             family_code := fc1 * 256 + fc2
             family_member_code := fmc1 * 256 + fmc2
             firmware_revision := fr1 * 1000 + fr2 * 100 + fr3 * 10 + fr4 }
  | _ => none

/-- The pad sequence produced by `CanvasIterator::new` (src/canvas/iterator.rs):
scan the full bounding box row-major (y outer, x inner) and keep the valid
coordinates. -/
def canvasIterPads (width height : ℕ) (is_valid : ℕ → ℕ → Bool) : List (ℕ × ℕ) :=
  (List.range height).flatMap fun y =>
    ((List.range width).filter fun x => is_valid x y).map fun x => (x, y)

/-- The state a `DeviceCanvas` (src/canvas/generic.rs) carries for its Canvas
implementation: the DeviceSpec constants and validity predicate plus the two
`Array2d<Color>` buffers. The connection handles do not affect `flush`'s
change-list computation and are omitted. -/
structure DeviceCanvasState where
  width : ℕ
  height : ℕ
  precision : ℕ
  is_valid : ℕ → ℕ → Bool
  curr_state : Array2d Color
  new_state : Array2d Color

/-- The change list computed by `DeviceCanvas::flush` (src/canvas/generic.rs):
for every valid pad of the bounding box, quantize the displayed and the
pending color at the device's precision and emit the quantized pending color
when the two quantizations differ. The in-bounds buffer reads `self[pad]` and
`self.at_new(pad)` are total for iterator pads of well-formed buffers. -/
def DeviceCanvasState.flushChanges (c : DeviceCanvasState) : List (ℕ × ℕ × (ℕ × ℕ × ℕ)) :=
  (canvasIterPads c.width c.height c.is_valid).filterMap fun p =>
    let old := (c.curr_state.getD p.1 p.2 Color.BLACK).quantize c.precision
    let new := (c.new_state.getD p.1 p.2 Color.BLACK).quantize c.precision
    if new ≠ old then some (p.1, p.2, new) else none

/-- The number of `Spec::flush` invocations `DeviceCanvas::flush` performs:
one when the change list is non-empty, zero otherwise. -/
def DeviceCanvasState.specFlushCalls (c : DeviceCanvasState) : ℕ :=
  if c.flushChanges.isEmpty then 0 else 1

/-- The state after `DeviceCanvas::flush`: `curr_state` is replaced by a clone
of `new_state`. -/
def DeviceCanvasState.afterFlush (c : DeviceCanvasState) : DeviceCanvasState :=
  { c with curr_state := c.new_state }

/-- A placed sub-canvas as `CanvasLayout` sees it through the Canvas trait
object: bounding box, validity, and the two per-cell color views read during
`add` (`canvas.at_new(pad)` and `canvas[pad]`). -/
structure SubCanvas where
  width : ℕ
  height : ℕ
  is_valid : ℕ → ℕ → Bool
  colorNew : ℕ → ℕ → Color
  colorOld : ℕ → ℕ → Color

/-- One coordinate-map entry of `CanvasLayout` (src/canvas/layout.rs). -/
structure Pixel where
  device_index : ℕ
  color_new : Color
  color_old : Color

/-- One placed device of `CanvasLayout` (src/canvas/layout.rs). -/
structure LayoutDevice where
  canvas : SubCanvas
  rotation : Rotation
  x : ℕ
  y : ℕ

/-- The `CanvasLayout` state relevant to placement: the ordered device list
and the coordinate map (a HashMap in the source; modelled as an association
list whose key set is what matters). -/
structure CanvasLayoutState where
  devices : List LayoutDevice
  coordinate_map : List ((ℕ × ℕ) × Pixel)

/-- Key lookup in the modelled coordinate map. -/
def mapLookup (m : List ((ℕ × ℕ) × Pixel)) (k : ℕ × ℕ) : Option Pixel :=
  (m.find? fun e => decide (e.1 = k)).map Prod.snd

/-- The per-pad insertion loop of `CanvasLayout::add` (src/canvas/layout.rs):
insert a Pixel for each valid pad's global coordinate, panicking — modelled as
Except.error — when the coordinate is already occupied (the source inserts
first and panics when an old value comes back, which is observationally the
same as checking first). -/
def insertPads (index : ℕ) (c : SubCanvas) (rot : Rotation) (x_offset y_offset : ℕ) :
    List (ℕ × ℕ) → List ((ℕ × ℕ) × Pixel) → Except String (List ((ℕ × ℕ) × Pixel))
  | [], m => Except.ok m
  | p :: rest, m =>
      let translated_coords := to_global p.1 p.2 rot x_offset y_offset
      if (mapLookup m translated_coords).isSome then
        Except.error "Found overlap while adding canvas to layout"
      else
        insertPads index c rot x_offset y_offset rest
          (m ++ [(translated_coords,
                  { device_index := index
                    color_new := c.colorNew p.1 p.2
                    color_old := c.colorOld p.1 p.2 })])

/-- `CanvasLayout::add` (src/canvas/layout.rs), placement part: register every
valid pad of the new canvas in the coordinate map (fatal error on overlap,
raised before the device is appended), then append the device. The
message-callback wiring has no effect on the placement state and is omitted. -/
def CanvasLayoutState.add (l : CanvasLayoutState) (x_offset y_offset : ℕ)
    (rot : Rotation) (c : SubCanvas) : Except String CanvasLayoutState :=
  let index := l.devices.length
  match insertPads index c rot x_offset y_offset
      (canvasIterPads c.width c.height c.is_valid) l.coordinate_map with
  | Except.error e => Except.error e
  | Except.ok m =>
      Except.ok { devices := l.devices ++ [{ canvas := c, rotation := rot, x := x_offset, y := y_offset }]
                  coordinate_map := m }

/-- A layout with no devices, as produced by `CanvasLayout::new`. -/
def emptyLayout : CanvasLayoutState := { devices := [], coordinate_map := [] }

/-- The arguments of one `CanvasLayout::add` call. -/
structure AddSpec where
  x_offset : ℕ
  y_offset : ℕ
  rotation : Rotation
  canvas : SubCanvas

/-- A sequence of `add` calls, failing at the first overlap. -/
def addAll : CanvasLayoutState → List AddSpec → Except String CanvasLayoutState
  | l, [] => Except.ok l
  | l, s :: rest =>
      match l.add s.x_offset s.y_offset s.rotation s.canvas with
      | Except.error e => Except.error e
      | Except.ok l2 => addAll l2 rest

/-- `CanvasLayout::bounding_box_width` (src/canvas/layout.rs): the maximum of
`device.x + device.canvas.bounding_box_width()` over the placed devices, or 0
when empty. -/
def CanvasLayoutState.bounding_box_width (l : CanvasLayoutState) : ℕ :=
  (l.devices.map fun d => d.x + d.canvas.width).foldr max 0

/-- `CanvasLayout::bounding_box_height` (src/canvas/layout.rs). -/
def CanvasLayoutState.bounding_box_height (l : CanvasLayoutState) : ℕ :=
  (l.devices.map fun d => d.y + d.canvas.height).foldr max 0

/-- `CanvasLayout::is_valid` (src/canvas/layout.rs): coordinate-map
membership. -/
def CanvasLayoutState.is_valid (l : CanvasLayoutState) (x y : ℕ) : Bool :=
  (mapLookup l.coordinate_map (x, y)).isSome

/-- The axis extent of the union of the placed devices' footprints, as the
spec describes `bounding_box()`: one past the largest occupied global x. This
definition follows the spec's words, for comparison against the source's
`bounding_box_width`. -/
def footprintWidth (m : List ((ℕ × ℕ) × Pixel)) : ℕ :=
  (m.map fun e => e.1.1 + 1).foldr max 0

/-- Boolean success test for the modelled fallible operations. -/
def exceptIsOk : Except String α → Bool
  | Except.ok _ => true
  | Except.error _ => false

/-- Extract an add result's layout, falling back to the empty layout (only
used on results known to be successful). -/
def layoutResultOrEmpty : Except String CanvasLayoutState → CanvasLayoutState
  | Except.ok l => l
  | Except.error _ => emptyLayout

/-- Concrete 1x1 device canvas whose pending color differs from its displayed
color while both quantize to the same value at precision 64. -/
def tinyCanvas : DeviceCanvasState :=
  { width := 1, height := 1, precision := 64
    is_valid := fun _ _ => true
    curr_state := { width := 1, height := 1, vec := [Color.BLACK] }
    new_state := { width := 1, height := 1, vec := [⟨1/1000, 0, 0⟩] } }

/-- Concrete fully-valid 2x1 sub-canvas: placed with rotation Left its
footprint occupies a single global column. -/
def wideCanvas : SubCanvas :=
  { width := 2, height := 1
    is_valid := fun _ _ => true
    colorNew := fun _ _ => Color.BLACK
    colorOld := fun _ _ => Color.BLACK }

/-- A one-device add sequence used to instantiate the layout theorems. -/
def demoSpecs : List AddSpec :=
  [{ x_offset := 0, y_offset := 0, rotation := Rotation.None, canvas := wideCanvas }]

/-- The layout obtained by running demoSpecs from the empty layout. -/
def demoLayout : CanvasLayoutState := layoutResultOrEmpty (addAll emptyLayout demoSpecs)

/-- The outcome alternatives of `std::sync::mpsc::Receiver::recv`. -/
inductive ChannelRecv (α : Type) where
  | ok (msg : α)
  | disconnected

/-- The outcome alternatives of `std::sync::mpsc::Receiver::try_recv`. -/
inductive ChannelTryRecv (α : Type) where
  | ok (msg : α)
  | empty
  | disconnected

/-- The outcome alternatives of `std::sync::mpsc::Receiver::recv_timeout`. -/
inductive ChannelRecvTimeout (α : Type) where
  | ok (msg : α)
  | timeout
  | disconnected

/-- The panic message of the polling wrapper's hung-up-sender paths
(src/midi_io.rs). -/
def hangupMsg : String := "Message sender has hung up - please report a bug"

/-- `MsgPollingWrapper::recv` (src/midi_io.rs): `.expect(...)` on the channel
result — a sender hang-up panics (modelled as Except.error) instead of being
reported as a value. -/
def MsgPollingWrapper.recv : ChannelRecv α → Except String α
  | ChannelRecv.ok msg => Except.ok msg
  | ChannelRecv.disconnected => Except.error hangupMsg

/-- `MsgPollingWrapper::try_recv` (src/midi_io.rs): Empty is reported as None,
Disconnected panics (modelled as Except.error). -/
def MsgPollingWrapper.try_recv : ChannelTryRecv α → Except String (Option α)
  | ChannelTryRecv.ok msg => Except.ok (some msg)
  | ChannelTryRecv.empty => Except.ok none
  | ChannelTryRecv.disconnected => Except.error hangupMsg

/-- `MsgPollingWrapper::recv_timeout` (src/midi_io.rs): Timeout is reported as
None, Disconnected panics (modelled as Except.error). -/
def MsgPollingWrapper.recv_timeout : ChannelRecvTimeout α → Except String (Option α)
  | ChannelRecvTimeout.ok msg => Except.ok (some msg)
  | ChannelRecvTimeout.timeout => Except.ok none
  | ChannelRecvTimeout.disconnected => Except.error hangupMsg

/-- C1 (counterexample): the claimed concrete value is wrong. Clamping scales
the green component 0.5 down to 1/3, so quantizing at range 4 floors 4/3 to 1,
not 2: the source returns (3, 1, 0), not (3, 2, 0). -/
theorem quantize_example_ne_claimed :
    Color.quantize ⟨3/2, 1/2, -1/5⟩ 4 ≠ (3, 2, 0) := by
  have h1 : Color.clamp ⟨3/2, 1/2, -1/5⟩ = ⟨1, 1/3, 0⟩ := by
    simp only [Color.clamp]
    norm_num
  simp only [Color.quantize, h1, f32AsU8]
  norm_num

/-- C1 (amended): for every color with rational components and every range in
1..=255, quantize returns a triple of unsigned values each at most range - 1;
and Color{r:1.5, g:0.5, b:-0.2}.quantize(4) returns exactly (3, 1, 0). -/
theorem quantize_range_correct (c : Color) (range : ℕ)
    (h1 : 1 ≤ range) (h2 : range ≤ 255) :
    (c.quantize range).1 ≤ range - 1 ∧ (c.quantize range).2.1 ≤ range - 1 ∧
      (c.quantize range).2.2 ≤ range - 1 ∧
      Color.quantize ⟨3/2, 1/2, -1/5⟩ 4 = (3, 1, 0) := by
  have h1 : Color.clamp ⟨3/2, 1/2, -1/5⟩ = ⟨1, 1/3, 0⟩ := by
    simp only [Color.clamp]
    norm_num
  refine ⟨Nat.min_le_right _ _, Nat.min_le_right _ _, Nat.min_le_right _ _, ?_⟩
  simp only [Color.quantize, h1, f32AsU8]
  norm_num

/-- Closed instantiation of quantize_range_correct at a concrete color and
range, discharging the range hypotheses. -/
theorem quantize_range_correct_witness :
    (1 ≤ 4 ∧ 4 ≤ 255) ∧
      ((Color.quantize ⟨2, 1, 0⟩ 4).1 ≤ 3 ∧ (Color.quantize ⟨2, 1, 0⟩ 4).2.1 ≤ 3 ∧
        (Color.quantize ⟨2, 1, 0⟩ 4).2.2 ≤ 3 ∧
        Color.quantize ⟨3/2, 1/2, -1/5⟩ 4 = (3, 1, 0)) :=
  ⟨by decide, quantize_range_correct ⟨2, 1, 0⟩ 4 (by decide) (by decide)⟩

/-- C2 (code bug): the MK2 DeviceSpec accepts the physical slot (7, 0), and
Button80::from_abs maps (7, 0) to control button 7 (as the shared absolute
coordinate convention requires), but default_physical_to_logical panics there:
its control-row guard is `x < 7` instead of `x < 8`, contradicting its own
documentation that it only panics outside a 9x9 grid. -/
theorem default_physical_to_logical_panics_at_7_0 :
    mk2_is_valid 7 0 = true ∧
      Button80.from_abs 7 0 = Except.ok (Button80.ControlButton 7) ∧
      default_logical_to_physical (LogicalButton.ControlButton 7) = ⟨7, 0⟩ ∧
      default_physical_to_logical mk2_is_valid ⟨7, 0⟩ =
        Except.error "Control Button the LaunchPad indicates is valid is too high" :=
  ⟨rfl, rfl, rfl, rfl⟩

/-- C3 (counterexample): `Array2d::get` at an out-of-bounds coordinate does
not return an absent value — it fails the `assert!(self.is_valid(x, y))`,
modelled as Except.error. -/
theorem array2d_get_out_of_bounds_panics :
    (Array2d.new ℕ 2 2).get 5 0 =
      Except.error "assertion failed: self.is_valid(x, y)" := rfl

/-- C3 (amended): `Array2d::get`/`get_mut` are not optional-returning: for a
well-formed buffer they succeed exactly when x < width and y < height, panic
(assertion failure) otherwise, and after `new(w, h)` an in-bounds get returns
the default element. -/
theorem array2d_get_set_panic_iff {T : Type} [Inhabited T] (a : Array2d T)
    (hlen : a.vec.length = a.width * a.height) (x y : ℕ) (v : T) :
    ((∃ t, a.get x y = Except.ok t) ↔ x < a.width ∧ y < a.height) ∧
      ((∃ a2, a.set x y v = Except.ok a2) ↔ x < a.width ∧ y < a.height) ∧
      (¬(x < a.width ∧ y < a.height) →
        a.get x y = Except.error "assertion failed: self.is_valid(x, y)" ∧
        a.set x y v = Except.error "assertion failed: self.is_valid(x, y)") ∧
      (∀ w h, x < w → y < h → (Array2d.new T w h).get x y = Except.ok default) := by
  have hidx : ∀ w h x0 y0 : ℕ, x0 < w → y0 < h → y0 * w + x0 < w * h := by
    intro w h x0 y0 hx0 hy0
    calc y0 * w + x0 < (y0 + 1) * w := by nlinarith
    _ ≤ h * w := Nat.mul_le_mul_right w hy0
    _ = w * h := Nat.mul_comm h w
  refine ⟨?_, ?_, ?_, ?_⟩
  · constructor
    · intro ⟨t, ht⟩
      by_contra hcon
      rw [Array2d.get] at ht
      have : a.is_valid x y = false := by
        simp [Array2d.is_valid]
        omega
      rw [this] at ht
      simp at ht
    · intro ⟨hx, hy⟩
      have hvalid : a.is_valid x y = true := by simp [Array2d.is_valid, hx, hy]
      have hlt : y * a.width + x < a.vec.length := by rw [hlen]; exact hidx _ _ _ _ hx hy
      rw [Array2d.get, hvalid]
      simp only [if_true]
      rcases List.get?_eq_get hlt with h
      rw [h]
      exact ⟨_, rfl⟩
  · constructor
    · intro ⟨a2, ha2⟩
      by_contra hcon
      rw [Array2d.set] at ha2
      have : a.is_valid x y = false := by
        simp [Array2d.is_valid]
        omega
      rw [this] at ha2
      simp at ha2
    · intro ⟨hx, hy⟩
      have hvalid : a.is_valid x y = true := by simp [Array2d.is_valid, hx, hy]
      rw [Array2d.set, hvalid]
      exact ⟨_, rfl⟩
  · intro hcon
    have : a.is_valid x y = false := by
      simp [Array2d.is_valid]
      omega
    rw [Array2d.get, Array2d.set, this]
    simp
  · intro w h hx hy
    have hvalid : (Array2d.new T w h).is_valid x y = true := by
      simp [Array2d.is_valid, Array2d.new, hx, hy]
    have hlt : y * w + x < w * h := hidx _ _ _ _ hx hy
    rw [Array2d.get, hvalid]
    simp only [if_true, Array2d.new]
    rw [List.get?_eq_get (by simpa using hlt)]
    simp

/-- Closed instantiation of array2d_get_set_panic_iff on a 2x3 buffer,
discharging the well-formedness hypothesis. -/
theorem array2d_get_set_panic_iff_witness :
    ((Array2d.new ℕ 2 3).vec.length = (Array2d.new ℕ 2 3).width * (Array2d.new ℕ 2 3).height) ∧
      (((∃ t, (Array2d.new ℕ 2 3).get 1 2 = Except.ok t) ↔
          1 < (Array2d.new ℕ 2 3).width ∧ 2 < (Array2d.new ℕ 2 3).height) ∧
        ((∃ a2, (Array2d.new ℕ 2 3).set 1 2 9 = Except.ok a2) ↔
          1 < (Array2d.new ℕ 2 3).width ∧ 2 < (Array2d.new ℕ 2 3).height) ∧
        (¬(1 < (Array2d.new ℕ 2 3).width ∧ 2 < (Array2d.new ℕ 2 3).height) →
          (Array2d.new ℕ 2 3).get 1 2 = Except.error "assertion failed: self.is_valid(x, y)" ∧
          (Array2d.new ℕ 2 3).set 1 2 9 = Except.error "assertion failed: self.is_valid(x, y)") ∧
        (∀ w h, 1 < w → 2 < h → (Array2d.new ℕ w h).get 1 2 = Except.ok default)) :=
  ⟨by decide, array2d_get_set_panic_iff (Array2d.new ℕ 2 3) (by decide) 1 2 9⟩

/-- Helper: i32ofU32 preserves the value mod 2^32. -/
theorem i32ofU32_emod (n : ℕ) : i32ofU32 n % 4294967296 = (n : ℤ) % 4294967296 := by
  unfold i32ofU32
  split <;> omega

/-- Helper: u32ofI32 is determined by the value mod 2^32. -/
theorem u32ofI32_eq_of_emod (e : ℤ) (n : ℕ) (hn : n < 4294967296)
    (he : e % 4294967296 = (n : ℤ) % 4294967296) : u32ofI32 e = n := by
  unfold u32ofI32
  omega

/-- Helper: the i32-of-u32 round trip preserves the value mod 2^32. -/
theorem i32ofU32_u32ofI32_emod (i : ℤ) :
    i32ofU32 (u32ofI32 i) % 4294967296 = i % 4294967296 := by
  unfold i32ofU32 u32ofI32
  split <;> omega

/-- C6: translating a local coordinate to global (rotation, then offset) and
back to local (offset subtraction, then the inverse rotation, with -Left =
Right, -Right = Left, and None/UpsideDown self-inverse) returns the original
coordinate, for every rotation, every u32 offset and every u32 coordinate. -/
theorem to_global_to_local_roundtrip (rot : Rotation) (x y x_offset y_offset : ℕ)
    (hx : x < 4294967296) (hy : y < 4294967296) :
    to_local (to_global x y rot x_offset y_offset).1 (to_global x y rot x_offset y_offset).2
      rot x_offset y_offset = (x, y) := by
  have hXx := i32ofU32_emod x
  have hYy := i32ofU32_emod y
  cases rot
  case None =>
    have h1 := i32ofU32_u32ofI32_emod (i32ofU32 x + i32ofU32 x_offset)
    have h2 := i32ofU32_u32ofI32_emod (i32ofU32 y + i32ofU32 y_offset)
    simp only [to_global, to_local, Rotation.translate, Rotation.neg, Prod.mk.injEq]
    exact ⟨u32ofI32_eq_of_emod _ _ hx (by omega), u32ofI32_eq_of_emod _ _ hy (by omega)⟩
  case Left =>
    have h1 := i32ofU32_u32ofI32_emod (-i32ofU32 y + i32ofU32 x_offset)
    have h2 := i32ofU32_u32ofI32_emod (i32ofU32 x + i32ofU32 y_offset)
    simp only [to_global, to_local, Rotation.translate, Rotation.neg, Prod.mk.injEq]
    exact ⟨u32ofI32_eq_of_emod _ _ hx (by omega), u32ofI32_eq_of_emod _ _ hy (by omega)⟩
  case Right =>
    have h1 := i32ofU32_u32ofI32_emod (i32ofU32 y + i32ofU32 x_offset)
    have h2 := i32ofU32_u32ofI32_emod (-i32ofU32 x + i32ofU32 y_offset)
    simp only [to_global, to_local, Rotation.translate, Rotation.neg, Prod.mk.injEq]
    exact ⟨u32ofI32_eq_of_emod _ _ hx (by omega), u32ofI32_eq_of_emod _ _ hy (by omega)⟩
  case UpsideDown =>
    have h1 := i32ofU32_u32ofI32_emod (-i32ofU32 x + i32ofU32 x_offset)
    have h2 := i32ofU32_u32ofI32_emod (-i32ofU32 y + i32ofU32 y_offset)
    simp only [to_global, to_local, Rotation.translate, Rotation.neg, Prod.mk.injEq]
    exact ⟨u32ofI32_eq_of_emod _ _ hx (by omega), u32ofI32_eq_of_emod _ _ hy (by omega)⟩

/-- Closed instantiation of to_global_to_local_roundtrip at rotation Left,
local coordinate (3, 5), offset (7, 11). -/
theorem to_global_to_local_roundtrip_witness :
    (3 : ℕ) < 4294967296 ∧ (5 : ℕ) < 4294967296 ∧
      to_local (to_global 3 5 Rotation.Left 7 11).1 (to_global 3 5 Rotation.Left 7 11).2
        Rotation.Left 7 11 = (3, 5) :=
  ⟨by decide, by decide,
    to_global_to_local_roundtrip Rotation.Left 3 5 7 11 (by decide) (by decide)⟩

/-- Helper: the value i32ofU32 0 is zero. -/
theorem i32ofU32_zero : i32ofU32 0 = 0 := rfl

/-- Helper: Euclidean remainder by a nonzero cast u32 bound is nonnegative and
below the original u32 bound (for a bound in 2^31..2^32, the cast is negative
with absolute value 2^32 - n ≤ n, so the bound still holds). -/
theorem emod_i32ofU32_bound (a : ℤ) (n : ℕ) (hn1 : 0 < n) (hn2 : n < 4294967296) :
    0 ≤ a % i32ofU32 n ∧ a % i32ofU32 n < n := by
  have hne : i32ofU32 n ≠ 0 := by unfold i32ofU32; split <;> omega
  have h1 := Int.emod_nonneg a hne
  have h2 := Int.emod_lt a hne
  have h3 : |i32ofU32 n| ≤ (n : ℤ) := by
    unfold i32ofU32
    split <;> rw [abs_le] <;> constructor <;> omega
  exact ⟨h1, by omega⟩

/-- Helper: the u32-to-i32 cast yields -1 exactly for the value 2^32 - 1. -/
theorem i32ofU32_eq_neg_one_iff (n : ℕ) (hn : n < 4294967296) :
    i32ofU32 n = -1 ↔ n = 4294967295 := by
  unfold i32ofU32
  split <;> omega

/-- C9 (counterexample): the totality asserted by the claim fails at one
corner — width 4294967295 casts to the i32 value -1, and i32::rem_euclid of
i32::MIN by -1 panics with a remainder-overflow error in every build profile,
so this wrap_edges call produces no wrapped pad at all. -/
theorem wrap_edges_overflow_panics :
    (Pad.mk (-2147483648) 0).wrap_edges 4294967295 5 =
      Except.error "attempt to calculate the remainder with overflow" := rfl

/-- C9 (amended): for positive bounds below 2^32, wrap_edges returns a pad
with each coordinate the Euclidean remainder in [0, bound) — except when a
coordinate is exactly i32::MIN while its bound is 4294967295 (cast to -1),
where i32::rem_euclid panics with a remainder-overflow error; when either
bound is zero it panics with a division-by-zero error. Both panics are
unstated preconditions at the public interface. -/
theorem wrap_edges_bounds_or_panic (p : Pad) (width height : ℕ)
    (hw : width < 4294967296) (hh : height < 4294967296) :
    (0 < width → 0 < height →
      ¬(p.x = -2147483648 ∧ width = 4294967295) →
      ¬(p.y = -2147483648 ∧ height = 4294967295) →
      ∃ q, p.wrap_edges width height = Except.ok q ∧
        0 ≤ q.x ∧ q.x < width ∧ 0 ≤ q.y ∧ q.y < height) ∧
    ((width = 0 ∨ height = 0) → ∃ e, p.wrap_edges width height = Except.error e) ∧
    ((p.x = -2147483648 ∧ width = 4294967295) ∨
        (0 < width ∧ ¬(p.x = -2147483648 ∧ width = 4294967295) ∧
          p.y = -2147483648 ∧ height = 4294967295) →
      p.wrap_edges width height =
        Except.error "attempt to calculate the remainder with overflow") := by
  refine ⟨?_, ?_, ?_⟩
  · intro hw0 hh0 hxo hyo
    have hwne : i32ofU32 width ≠ 0 := by unfold i32ofU32; split <;> omega
    have hhne : i32ofU32 height ≠ 0 := by unfold i32ofU32; split <;> omega
    have hxno : ¬(p.x = -2147483648 ∧ i32ofU32 width = -1) := by
      rw [i32ofU32_eq_neg_one_iff width hw]
      exact hxo
    have hyno : ¬(p.y = -2147483648 ∧ i32ofU32 height = -1) := by
      rw [i32ofU32_eq_neg_one_iff height hh]
      exact hyo
    have hbx := emod_i32ofU32_bound p.x width hw0 hw
    have hby := emod_i32ofU32_bound p.y height hh0 hh
    refine ⟨⟨p.x % i32ofU32 width, p.y % i32ofU32 height⟩, ?_, hbx.1, hbx.2, hby.1, hby.2⟩
    simp [Pad.wrap_edges, remEuclidI32, hwne, hhne, hxno, hyno]
    rfl
  · intro h0
    rcases h0 with h | h
    · subst h
      refine ⟨"attempt to calculate the remainder with a divisor of zero", ?_⟩
      simp [Pad.wrap_edges, remEuclidI32, i32ofU32_zero]
      rfl
    · subst h
      rcases eq_or_ne (i32ofU32 width) 0 with hz | hz
      · refine ⟨"attempt to calculate the remainder with a divisor of zero", ?_⟩
        simp [Pad.wrap_edges, remEuclidI32, hz, i32ofU32_zero]
        rfl
      · rcases em (p.x = -2147483648 ∧ i32ofU32 width = -1) with ho | ho
        · refine ⟨"attempt to calculate the remainder with overflow", ?_⟩
          simp [Pad.wrap_edges, remEuclidI32, hz, ho, i32ofU32_zero]
          rfl
        · refine ⟨"attempt to calculate the remainder with a divisor of zero", ?_⟩
          simp [Pad.wrap_edges, remEuclidI32, hz, ho, i32ofU32_zero]
          rfl
  · intro hcase
    rcases hcase with ⟨hx, hwv⟩ | ⟨hw0, hxno, hy, hhv⟩
    · subst hwv
      have hwv2 : i32ofU32 4294967295 = -1 := by decide
      simp [Pad.wrap_edges, remEuclidI32, hwv2, hx]
      rfl
    · subst hhv
      have hhv2 : i32ofU32 4294967295 = -1 := by decide
      have hwne : i32ofU32 width ≠ 0 := by unfold i32ofU32; split <;> omega
      have hxno2 : ¬(p.x = -2147483648 ∧ i32ofU32 width = -1) := by
        rw [i32ofU32_eq_neg_one_iff width hw]
        exact hxno
      simp [Pad.wrap_edges, remEuclidI32, hwne, hxno2, hhv2, hy]
      rfl

/-- Closed instantiation of wrap_edges_bounds_or_panic at the pad (-3, 12)
with bounds 7 and 5. -/
theorem wrap_edges_bounds_or_panic_witness :
    (7 : ℕ) < 4294967296 ∧ (5 : ℕ) < 4294967296 ∧
      ((0 < 7 → 0 < 5 →
        ¬((-3 : ℤ) = -2147483648 ∧ (7 : ℕ) = 4294967295) →
        ¬((12 : ℤ) = -2147483648 ∧ (5 : ℕ) = 4294967295) →
        ∃ q, (Pad.mk (-3) 12).wrap_edges 7 5 = Except.ok q ∧
          0 ≤ q.x ∧ q.x < 7 ∧ 0 ≤ q.y ∧ q.y < 5) ∧
      ((7 = 0 ∨ 5 = 0) → ∃ e, (Pad.mk (-3) 12).wrap_edges 7 5 = Except.error e) ∧
      (((-3 : ℤ) = -2147483648 ∧ (7 : ℕ) = 4294967295) ∨
          (0 < 7 ∧ ¬((-3 : ℤ) = -2147483648 ∧ (7 : ℕ) = 4294967295) ∧
            (12 : ℤ) = -2147483648 ∧ (5 : ℕ) = 4294967295) →
        (Pad.mk (-3) 12).wrap_edges 7 5 =
          Except.error "attempt to calculate the remainder with overflow")) :=
  ⟨by decide, by decide, wrap_edges_bounds_or_panic ⟨-3, 12⟩ 7 5 (by decide) (by decide)⟩

/-- C8: the device-inquiry codec is exact — the request is precisely the
6-byte universal inquiry frame (id 127 for Any, the given id otherwise), and
the parser accepts exactly the 17-byte response frames of the documented
shape, decoding family codes big-endian and the firmware revision as four
decimal digits. -/
theorem device_inquiry_codec_exact :
    request_device_inquiry DeviceIdQuery.Any = Except.ok [240, 126, 127, 6, 1, 247] ∧
      (∀ id, id ≠ 127 →
        request_device_inquiry (DeviceIdQuery.Specific id) =
          Except.ok [240, 126, id, 6, 1, 247]) ∧
      (∀ device_id fc1 fc2 fmc1 fmc2 fr1 fr2 fr3 fr4 : ℕ,
        parse_device_query
            [240, 126, device_id, 6, 2, 0, 32, 41, fc1, fc2, fmc1, fmc2, fr1, fr2, fr3, fr4, 247] =
          some { device_id := device_id, family_code := fc1 * 256 + fc2,
                 family_member_code := fmc1 * 256 + fmc2,
                 firmware_revision := fr1 * 1000 + fr2 * 100 + fr3 * 10 + fr4 }) ∧
      (∀ data d, parse_device_query data = some d →
        ∃ fc1 fc2 fmc1 fmc2 fr1 fr2 fr3 fr4,
          data = [240, 126, d.device_id, 6, 2, 0, 32, 41,
                  fc1, fc2, fmc1, fmc2, fr1, fr2, fr3, fr4, 247] ∧
          d.family_code = fc1 * 256 + fc2 ∧ d.family_member_code = fmc1 * 256 + fmc2 ∧
          d.firmware_revision = fr1 * 1000 + fr2 * 100 + fr3 * 10 + fr4) := by
  refine ⟨rfl, ?_, fun _ _ _ _ _ _ _ _ _ => rfl, ?_⟩
  · intro id h
    simp [request_device_inquiry, h]
  · intro data d h
    unfold parse_device_query at h
    split at h
    · simp only [Option.some.injEq] at h
      subst h
      exact ⟨_, _, _, _, _, _, _, _, rfl, rfl, rfl, rfl⟩
    · exact absurd h (by simp)

/-- Closed instantiation of device_inquiry_codec_exact for the specific
device id 5. -/
theorem device_inquiry_codec_exact_witness :
    (5 : ℕ) ≠ 127 ∧
      request_device_inquiry (DeviceIdQuery.Specific 5) =
        Except.ok [240, 126, 5, 6, 1, 247] :=
  ⟨by decide, device_inquiry_codec_exact.2.1 5 (by decide)⟩

/-- Helper: the canvas iterator yields exactly the valid in-bounds pads. -/
theorem mem_canvasIterPads (width height : ℕ) (is_valid : ℕ → ℕ → Bool) (x y : ℕ) :
    (x, y) ∈ canvasIterPads width height is_valid ↔
      x < width ∧ y < height ∧ is_valid x y = true := by
  simp only [canvasIterPads, List.mem_flatMap, List.mem_map, List.mem_filter, List.mem_range]
  constructor
  · rintro ⟨y0, hy0, x0, ⟨⟨hx0, hv⟩, heq⟩⟩
    obtain ⟨rfl, rfl⟩ := Prod.mk.injEq .. ▸ heq
    exact ⟨hx0, hy0, hv⟩
  · rintro ⟨hx, hy, hv⟩
    exact ⟨y, hy, x, ⟨⟨hx, hv⟩, rfl⟩⟩

/-- C5 (counterexample): a cell whose raw pending color differs from its raw
displayed color is omitted from the change list when the two quantize equal —
the diff is over quantized colors, not raw ones. -/
theorem flush_diffs_quantized_not_raw :
    tinyCanvas.new_state.getD 0 0 Color.BLACK ≠ tinyCanvas.curr_state.getD 0 0 Color.BLACK ∧
      tinyCanvas.is_valid 0 0 = true ∧
      tinyCanvas.flushChanges = [] := by
  have hnew : tinyCanvas.new_state.getD 0 0 Color.BLACK = ⟨1/1000, 0, 0⟩ := rfl
  have hcurr : tinyCanvas.curr_state.getD 0 0 Color.BLACK = Color.BLACK := rfl
  have hprec : tinyCanvas.precision = 64 := rfl
  have hq : Color.quantize ⟨1/1000, 0, 0⟩ 64 = (0, 0, 0) := by
    have hcl : Color.clamp ⟨1/1000, 0, 0⟩ = ⟨1/1000, 0, 0⟩ := by
      simp only [Color.clamp]
      norm_num
    simp only [Color.quantize, hcl, f32AsU8]
    norm_num
  have hq0 : Color.quantize Color.BLACK 64 = (0, 0, 0) := by
    have hcl : Color.clamp Color.BLACK = Color.BLACK := by
      simp only [Color.clamp, Color.BLACK]
      norm_num
    simp only [Color.quantize, hcl, f32AsU8]
    norm_num [Color.BLACK]
  refine ⟨?_, rfl, ?_⟩
  · rw [hnew, hcurr]
    simp only [Color.BLACK, ne_eq, Color.mk.injEq]
    norm_num
  · have hpads :
        canvasIterPads tinyCanvas.width tinyCanvas.height tinyCanvas.is_valid = [(0, 0)] := rfl
    rw [DeviceCanvasState.flushChanges, hpads]
    simp only [List.filterMap_cons, List.filterMap_nil, hnew, hcurr, hprec, hq, hq0]
    simp

/-- C5 (amended): the change list of DeviceCanvas::flush contains (x, y, q)
exactly when (x, y) is a valid pad of the bounding box whose pending and
displayed colors quantize differently at the device precision, with q the
quantized pending color; Spec::flush is invoked once exactly when the list is
non-empty and never otherwise; and afterwards curr_state equals new_state. -/
theorem device_canvas_flush_spec (c : DeviceCanvasState) :
    (∀ x y q, (x, y, q) ∈ c.flushChanges ↔
      (x < c.width ∧ y < c.height ∧ c.is_valid x y = true ∧
        (c.new_state.getD x y Color.BLACK).quantize c.precision ≠
          (c.curr_state.getD x y Color.BLACK).quantize c.precision ∧
        q = (c.new_state.getD x y Color.BLACK).quantize c.precision)) ∧
      (c.specFlushCalls = 1 ↔ c.flushChanges ≠ []) ∧
      (c.specFlushCalls = 0 ↔ c.flushChanges = []) ∧
      c.afterFlush.curr_state = c.new_state := by
  refine ⟨?_, ?_, ?_, rfl⟩
  · intro x y q
    simp only [DeviceCanvasState.flushChanges, List.mem_filterMap]
    constructor
    · rintro ⟨⟨x0, y0⟩, hmem, hf⟩
      rw [mem_canvasIterPads] at hmem
      simp only [ne_eq, ite_not] at hf
      split at hf
      · exact absurd hf (by simp)
      · simp only [Option.some.injEq, Prod.mk.injEq] at hf
        obtain ⟨rfl, rfl, rfl⟩ := hf
        exact ⟨hmem.1, hmem.2.1, hmem.2.2, by assumption, rfl⟩
    · rintro ⟨hx, hy, hv, hne, rfl⟩
      refine ⟨(x, y), (mem_canvasIterPads ..).mpr ⟨hx, hy, hv⟩, ?_⟩
      simp only [ne_eq, ite_not]
      rw [if_neg (by simpa using hne)]
  · simp only [DeviceCanvasState.specFlushCalls]
    split <;> rename_i hsplit <;> simp_all [List.isEmpty_iff]
  · simp only [DeviceCanvasState.specFlushCalls]
    split <;> rename_i hsplit <;> simp_all [List.isEmpty_iff]

/-- Helper: lookup in a cons coordinate map. -/
theorem mapLookup_cons (e : (ℕ × ℕ) × Pixel) (rest : List ((ℕ × ℕ) × Pixel)) (k : ℕ × ℕ) :
    mapLookup (e :: rest) k = if e.1 = k then some e.2 else mapLookup rest k := by
  unfold mapLookup
  rcases eq_or_ne e.1 k with h | h
  · simp [List.find?_cons, h]
  · simp [List.find?_cons, h]

/-- Helper: a key found in a map is still found after appending entries. -/
theorem mapLookup_append_left (m1 m2 : List ((ℕ × ℕ) × Pixel)) (k : ℕ × ℕ)
    (h : (mapLookup m1 k).isSome = true) :
    (mapLookup (m1 ++ m2) k).isSome = true := by
  induction m1 with
  | nil => simp [mapLookup] at h
  | cons e rest ih =>
      rw [List.cons_append, mapLookup_cons]
      rw [mapLookup_cons] at h
      rcases eq_or_ne e.1 k with he | he
      · simp [he]
      · rw [if_neg he] at h
        rw [if_neg he]
        exact ih h

/-- Helper: lookup succeeds exactly for the keys of the map. -/
theorem mapLookup_isSome_iff (m : List ((ℕ × ℕ) × Pixel)) (k : ℕ × ℕ) :
    (mapLookup m k).isSome = true ↔ k ∈ m.map Prod.fst := by
  induction m with
  | nil => simp [mapLookup]
  | cons e rest ih =>
      rw [mapLookup_cons]
      rcases eq_or_ne e.1 k with he | he
      · simp [he]
      · rw [if_neg he]
        simp only [List.map_cons, List.mem_cons]
        rw [ih]
        constructor
        · exact Or.inr
        · rintro (h | h)
          · exact absurd h.symm he
          · exact h

/-- Helper: a successful insertion loop appends exactly one entry per pad, in
order, all owned by the new device index. -/
theorem insertPads_ok_shape (i : ℕ) (c : SubCanvas) (rot : Rotation) (xo yo : ℕ) :
    ∀ (pads : List (ℕ × ℕ)) (m m2 : List ((ℕ × ℕ) × Pixel)),
      insertPads i c rot xo yo pads m = Except.ok m2 →
      m2 = m ++ pads.map fun p =>
        (to_global p.1 p.2 rot xo yo,
         { device_index := i, color_new := c.colorNew p.1 p.2, color_old := c.colorOld p.1 p.2 })
  | [], m, m2, h => by
      simp only [insertPads, Except.ok.injEq] at h
      simp [h]
  | p :: rest, m, m2, h => by
      rw [insertPads] at h
      split at h
      · exact absurd h (by simp)
      · have ih := insertPads_ok_shape i c rot xo yo rest _ _ h
        simp [ih]

/-- Helper: a successful insertion loop implies no pad collided with the map
it started from. -/
theorem insertPads_ok_no_collision (i : ℕ) (c : SubCanvas) (rot : Rotation) (xo yo : ℕ) :
    ∀ (pads : List (ℕ × ℕ)) (m m2 : List ((ℕ × ℕ) × Pixel)),
      insertPads i c rot xo yo pads m = Except.ok m2 →
      ∀ p ∈ pads, (mapLookup m (to_global p.1 p.2 rot xo yo)).isSome = false
  | [], m, m2, h => by simp
  | p :: rest, m, m2, h => by
      rw [insertPads] at h
      split at h
      · exact absurd h (by simp)
      · rename_i hns
        intro p2 hp2
        rcases List.mem_cons.mp hp2 with rfl | hmem
        · simpa using hns
        · have ih := insertPads_ok_no_collision i c rot xo yo rest _ _ h p2 hmem
          by_contra hcon
          simp only [Bool.not_eq_false] at hcon
          have hext := mapLookup_append_left m
            [(to_global p.1 p.2 rot xo yo,
              { device_index := i, color_new := c.colorNew p.1 p.2,
                color_old := c.colorOld p.1 p.2 })] _ hcon
          rw [ih] at hext
          exact absurd hext (by simp)

/-- Helper: a successful insertion loop preserves distinctness of the map's
keys. -/
theorem insertPads_ok_nodup (i : ℕ) (c : SubCanvas) (rot : Rotation) (xo yo : ℕ) :
    ∀ (pads : List (ℕ × ℕ)) (m m2 : List ((ℕ × ℕ) × Pixel)),
      insertPads i c rot xo yo pads m = Except.ok m2 →
      (m.map Prod.fst).Nodup → (m2.map Prod.fst).Nodup
  | [], m, m2, h, hnd => by
      simp only [insertPads, Except.ok.injEq] at h
      exact h ▸ hnd
  | p :: rest, m, m2, h, hnd => by
      rw [insertPads] at h
      split at h
      · exact absurd h (by simp)
      · rename_i hns
        refine insertPads_ok_nodup i c rot xo yo rest _ _ h ?_
        rw [List.map_append, List.map_cons, List.map_nil]
        rw [List.nodup_append]
        refine ⟨hnd, List.nodup_singleton _, ?_⟩
        intro k hk1 hk2
        simp only [List.mem_singleton] at hk2
        subst hk2
        have : (mapLookup m (to_global p.1 p.2 rot xo yo)).isSome = true :=
          (mapLookup_isSome_iff m _).mpr hk1
        rw [this] at hns
        exact hns rfl

/-- Helper: decomposition of one successful `add` — the device is appended,
the map gains exactly the translated valid pads, none of which collided, and
key distinctness is preserved. -/
theorem add_ok_parts (l : CanvasLayoutState) (xo yo : ℕ) (rot : Rotation) (c : SubCanvas)
    (l2 : CanvasLayoutState) (h : l.add xo yo rot c = Except.ok l2) :
    l2.devices = l.devices ++ [{ canvas := c, rotation := rot, x := xo, y := yo }] ∧
      l2.coordinate_map = l.coordinate_map ++
        (canvasIterPads c.width c.height c.is_valid).map (fun p =>
          (to_global p.1 p.2 rot xo yo,
           { device_index := l.devices.length, color_new := c.colorNew p.1 p.2,
             color_old := c.colorOld p.1 p.2 })) ∧
      (∀ p ∈ canvasIterPads c.width c.height c.is_valid,
        (mapLookup l.coordinate_map (to_global p.1 p.2 rot xo yo)).isSome = false) ∧
      ((l.coordinate_map.map Prod.fst).Nodup → (l2.coordinate_map.map Prod.fst).Nodup) := by
  simp only [CanvasLayoutState.add] at h
  split at h
  · exact absurd h (by simp)
  · rename_i m heq
    simp only [Except.ok.injEq] at h
    subst h
    refine ⟨rfl, ?_, ?_, ?_⟩
    · exact insertPads_ok_shape _ _ _ _ _ _ _ _ heq
    · exact insertPads_ok_no_collision _ _ _ _ _ _ _ _ heq
    · exact insertPads_ok_nodup _ _ _ _ _ _ _ _ heq

/-- Helper: an add whose canvas has a valid pad translating onto an occupied
global coordinate fails with a fatal error. -/
theorem add_error_of_collision (l : CanvasLayoutState) (xo yo : ℕ) (rot : Rotation)
    (c : SubCanvas)
    (hcol : ∃ p ∈ canvasIterPads c.width c.height c.is_valid,
      (mapLookup l.coordinate_map (to_global p.1 p.2 rot xo yo)).isSome = true) :
    ∃ e, l.add xo yo rot c = Except.error e := by
  rcases hadd : l.add xo yo rot c with e | l2
  · exact ⟨e, rfl⟩
  · obtain ⟨p, hp, hl⟩ := hcol
    have := (add_ok_parts l xo yo rot c l2 hadd).2.2.1 p hp
    rw [hl] at this
    exact absurd this (by simp)

/-- Helper: decomposition of a successful sequence of adds — the device list
and the key list are the concatenations contributed by each add, in order. -/
theorem addAll_ok_parts :
    ∀ (specs : List AddSpec) (l0 l : CanvasLayoutState),
      addAll l0 specs = Except.ok l →
      l.devices = l0.devices ++ specs.map (fun s =>
        { canvas := s.canvas, rotation := s.rotation, x := s.x_offset, y := s.y_offset }) ∧
      l.coordinate_map.map Prod.fst = l0.coordinate_map.map Prod.fst ++
        specs.flatMap (fun s =>
          (canvasIterPads s.canvas.width s.canvas.height s.canvas.is_valid).map (fun p =>
            to_global p.1 p.2 s.rotation s.x_offset s.y_offset))
  | [], l0, l, h => by
      simp only [addAll, Except.ok.injEq] at h
      subst h
      simp
  | s :: rest, l0, l, h => by
      rw [addAll] at h
      split at h
      · exact absurd h (by simp)
      · rename_i l1 heq
        obtain ⟨hdev, hmap⟩ := addAll_ok_parts rest l1 l h
        obtain ⟨hdev1, hmap1, _, _⟩ := add_ok_parts l0 _ _ _ _ l1 heq
        constructor
        · rw [hdev, hdev1]
          simp [List.append_assoc]
        · rw [hmap, hmap1]
          simp only [List.map_append, List.map_map, List.flatMap_cons, List.append_assoc]
          rfl

/-- Helper: a successful sequence of adds preserves key distinctness and the
bound of every pixel's owner index by the device count. -/
theorem addAll_ok_inv :
    ∀ (specs : List AddSpec) (l0 l : CanvasLayoutState),
      addAll l0 specs = Except.ok l →
      (l0.coordinate_map.map Prod.fst).Nodup →
      (∀ e ∈ l0.coordinate_map, e.2.device_index < l0.devices.length) →
      (l.coordinate_map.map Prod.fst).Nodup ∧
        ∀ e ∈ l.coordinate_map, e.2.device_index < l.devices.length
  | [], l0, l, h, h1, h2 => by
      simp only [addAll, Except.ok.injEq] at h
      subst h
      exact ⟨h1, h2⟩
  | s :: rest, l0, l, h, h1, h2 => by
      rw [addAll] at h
      split at h
      · exact absurd h (by simp)
      · rename_i l1 heq
        obtain ⟨hdev1, hmap1, hnc, hnodup⟩ := add_ok_parts l0 _ _ _ _ l1 heq
        refine addAll_ok_inv rest l1 l h (hnodup h1) ?_
        intro e he
        rw [hmap1] at he
        rw [hdev1]
        rcases List.mem_append.mp he with hm | hm
        · have := h2 e hm
          simp only [List.length_append, List.length_cons, List.length_nil]
          omega
        · simp only [List.mem_map] at hm
          obtain ⟨p, hp, rfl⟩ := hm
          simp only [List.length_append, List.length_cons, List.length_nil]
          omega

/-- C7: in every layout built by a sequence of adds, each global coordinate is
owned by exactly one map entry whose device index names a placed device; an
add whose valid pads translate onto an occupied coordinate raises a fatal
error (the source panics in the insertion loop, before the device is appended
to the device list); and a successful add appends the device, implies none of
its pads collided, and keeps the ownership unique. -/
theorem layout_overlap_rejected (specs : List AddSpec) (l : CanvasLayoutState)
    (h : addAll emptyLayout specs = Except.ok l) :
    ((l.coordinate_map.map Prod.fst).Nodup ∧
      ∀ e ∈ l.coordinate_map, e.2.device_index < l.devices.length) ∧
    (∀ xo yo rot c,
      (∃ p ∈ canvasIterPads c.width c.height c.is_valid,
        (mapLookup l.coordinate_map (to_global p.1 p.2 rot xo yo)).isSome = true) →
      ∃ e, l.add xo yo rot c = Except.error e) ∧
    (∀ xo yo rot c l2, l.add xo yo rot c = Except.ok l2 →
      l2.devices = l.devices ++ [{ canvas := c, rotation := rot, x := xo, y := yo }] ∧
      (∀ p ∈ canvasIterPads c.width c.height c.is_valid,
        (mapLookup l.coordinate_map (to_global p.1 p.2 rot xo yo)).isSome = false) ∧
      ((l2.coordinate_map.map Prod.fst).Nodup ∧
        ∀ e ∈ l2.coordinate_map, e.2.device_index < l2.devices.length)) := by
  have hinv := addAll_ok_inv specs emptyLayout l h (by simp [emptyLayout]) (by simp [emptyLayout])
  refine ⟨hinv, fun xo yo rot c => add_error_of_collision l xo yo rot c, ?_⟩
  intro xo yo rot c l2 h2
  obtain ⟨hdev, hmap, hnc, hnodup⟩ := add_ok_parts l xo yo rot c l2 h2
  refine ⟨hdev, hnc, hnodup hinv.1, ?_⟩
  intro e he
  rw [hmap] at he
  rw [hdev]
  rcases List.mem_append.mp he with hm | hm
  · have := hinv.2 e hm
    simp only [List.length_append, List.length_cons, List.length_nil]
    omega
  · simp only [List.mem_map] at hm
    obtain ⟨p, hp, rfl⟩ := hm
    simp only [List.length_append, List.length_cons, List.length_nil]
    omega

/-- Closed instantiation of layout_overlap_rejected on the one-device demo
layout, discharging the addAll hypothesis by computation. -/
theorem layout_overlap_rejected_witness :
    addAll emptyLayout demoSpecs = Except.ok demoLayout ∧
    (((demoLayout.coordinate_map.map Prod.fst).Nodup ∧
      ∀ e ∈ demoLayout.coordinate_map, e.2.device_index < demoLayout.devices.length) ∧
    (∀ xo yo rot c,
      (∃ p ∈ canvasIterPads c.width c.height c.is_valid,
        (mapLookup demoLayout.coordinate_map (to_global p.1 p.2 rot xo yo)).isSome = true) →
      ∃ e, demoLayout.add xo yo rot c = Except.error e) ∧
    (∀ xo yo rot c l2, demoLayout.add xo yo rot c = Except.ok l2 →
      l2.devices = demoLayout.devices ++ [{ canvas := c, rotation := rot, x := xo, y := yo }] ∧
      (∀ p ∈ canvasIterPads c.width c.height c.is_valid,
        (mapLookup demoLayout.coordinate_map (to_global p.1 p.2 rot xo yo)).isSome = false) ∧
      ((l2.coordinate_map.map Prod.fst).Nodup ∧
        ∀ e ∈ l2.coordinate_map, e.2.device_index < l2.devices.length))) :=
  ⟨rfl, layout_overlap_rejected demoSpecs demoLayout rfl⟩

/-- C4 (counterexample): a 2x1 fully-valid canvas placed at the origin with
rotation Left occupies a single global column, so the union of footprints has
width 1, but the source's bounding_box_width reports offset + unrotated width
= 2. -/
theorem layout_bbox_not_footprint :
    exceptIsOk (emptyLayout.add 0 0 Rotation.Left wideCanvas) = true ∧
      (layoutResultOrEmpty (emptyLayout.add 0 0 Rotation.Left wideCanvas)).bounding_box_width = 2 ∧
      footprintWidth
        (layoutResultOrEmpty (emptyLayout.add 0 0 Rotation.Left wideCanvas)).coordinate_map = 1 :=
  ⟨rfl, rfl, rfl⟩

/-- C4 (amended): the bounding box a layout reports is, per axis, the maximum
over the placed devices of the placement offset plus the device's own
unrotated bounding-box extent (not the rotation-applied footprint), and
is_valid holds exactly on the coordinate map's keys — equivalently, exactly at
the rotation-and-offset image of some added device's valid pad. -/
theorem layout_bounding_box_unrotated (specs : List AddSpec) (l : CanvasLayoutState)
    (h : addAll emptyLayout specs = Except.ok l) :
    l.bounding_box_width = (specs.map fun s => s.x_offset + s.canvas.width).foldr max 0 ∧
      l.bounding_box_height = (specs.map fun s => s.y_offset + s.canvas.height).foldr max 0 ∧
      (∀ x y, l.is_valid x y = true ↔
        ∃ s ∈ specs, ∃ p ∈ canvasIterPads s.canvas.width s.canvas.height s.canvas.is_valid,
          to_global p.1 p.2 s.rotation s.x_offset s.y_offset = (x, y)) := by
  obtain ⟨hdev, hmap⟩ := addAll_ok_parts specs emptyLayout l h
  refine ⟨?_, ?_, ?_⟩
  · rw [CanvasLayoutState.bounding_box_width, hdev]
    simp only [emptyLayout, List.nil_append, List.map_map]
    rfl
  · rw [CanvasLayoutState.bounding_box_height, hdev]
    simp only [emptyLayout, List.nil_append, List.map_map]
    rfl
  · intro x y
    rw [CanvasLayoutState.is_valid, mapLookup_isSome_iff, hmap]
    simp only [emptyLayout, List.map_nil, List.nil_append, List.mem_flatMap, List.mem_map]

/-- Closed instantiation of layout_bounding_box_unrotated on the one-device
demo layout. -/
theorem layout_bounding_box_unrotated_witness :
    addAll emptyLayout demoSpecs = Except.ok demoLayout ∧
    (demoLayout.bounding_box_width =
        (demoSpecs.map fun s => s.x_offset + s.canvas.width).foldr max 0 ∧
      demoLayout.bounding_box_height =
        (demoSpecs.map fun s => s.y_offset + s.canvas.height).foldr max 0 ∧
      (∀ x y, demoLayout.is_valid x y = true ↔
        ∃ s ∈ demoSpecs, ∃ p ∈ canvasIterPads s.canvas.width s.canvas.height s.canvas.is_valid,
          to_global p.1 p.2 s.rotation s.x_offset s.y_offset = (x, y))) :=
  ⟨rfl, layout_bounding_box_unrotated demoSpecs demoLayout rfl⟩

/-- C10: when the sending side of the polling wrapper's channel has hung up,
recv, try_recv and recv_timeout all panic with the hang-up message rather than
returning an error value or a none-pending result; only Empty and Timeout are
reported as absent values. -/
theorem polling_wrapper_hangup_panics :
    (∀ (α : Type), MsgPollingWrapper.recv (ChannelRecv.disconnected : ChannelRecv α) =
        Except.error hangupMsg) ∧
      (∀ (α : Type), MsgPollingWrapper.try_recv (ChannelTryRecv.disconnected : ChannelTryRecv α) =
        Except.error hangupMsg) ∧
      (∀ (α : Type),
        MsgPollingWrapper.recv_timeout (ChannelRecvTimeout.disconnected : ChannelRecvTimeout α) =
          Except.error hangupMsg) ∧
      (∀ (α : Type), MsgPollingWrapper.try_recv (ChannelTryRecv.empty : ChannelTryRecv α) =
        Except.ok none) ∧
      (∀ (α : Type), MsgPollingWrapper.recv_timeout (ChannelRecvTimeout.timeout : ChannelRecvTimeout α) =
        Except.ok none) ∧
      (∀ (α : Type) (m : α), MsgPollingWrapper.recv (ChannelRecv.ok m) = Except.ok m ∧
        MsgPollingWrapper.try_recv (ChannelTryRecv.ok m) = Except.ok (some m) ∧
        MsgPollingWrapper.recv_timeout (ChannelRecvTimeout.ok m) = Except.ok (some m)) :=
  ⟨fun _ => rfl, fun _ => rfl, fun _ => rfl, fun _ => rfl, fun _ => rfl,
    fun _ _ => ⟨rfl, rfl, rfl⟩⟩

end Launchy
